import Mathlib

/-!
Shallow embedding of the FabZClean order-tracking backend.

The repository holds two parallel implementations of the same CRUD backend:
a Flask/SQLAlchemy one under `src/src/app` and a FastAPI one under
`src/fabzclean-fastapi/app`.  Definitions below translate the route handlers
of both.  Flask handlers keep the source names (`scan`, `create_order`,
`update_order`, `delete_order`, `update_service`, `worker_login`,
`gen_order_number`); the FastAPI handlers carry a `fastapi` name part.
The database session is modelled as an explicit record of entity lists;
a handler returns the post-state together with an `Except` outcome, where
the error constructors follow the spec's error taxonomy.
-/

namespace FabZClean

/-- Row of the `services` table (`src/src/app/models/service.py`).
`price` is a `Numeric(10,2)` column, modelled in cents as an integer. -/
structure Service where
  id : Nat
  name : String
  price : Int
  duration_minutes : Option Nat
  status : String
deriving DecidableEq

/-- Row of the `customers` table, restricted to the fields the order and
worker routes read (`id` for ownership, `email` for the QR payload). -/
structure Customer where
  id : Nat
  email : String
deriving DecidableEq

/-- Row of the `orders` table (`src/src/app/models/order.py`).
Timestamps are abstract `Nat` ticks. -/
structure Order where
  id : Nat
  order_number : String
  customer_id : Nat
  service_id : Nat
  pickup_date : Option Nat
  instructions : Option String
  total_cost : Int
  status : String
  qr_code_path : Option String
  created_at : Nat
deriving DecidableEq

/-- Row of the `tracks` table (`src/src/app/models/track.py`). -/
structure Track where
  id : Nat
  order_id : Nat
  worker_id : Option Nat
  action : String
  note : Option String
  location : Option String
  created_at : Nat
deriving DecidableEq

/-- Row of the `workers` table (`src/src/app/models/worker.py`). -/
structure Worker where
  id : Nat
  name : String
  email : Option String
  token : Option String
deriving DecidableEq

/-- The persistent store: one list per table plus autoincrement counters
for the two tables the embedded handlers insert into. -/
structure DB where
  services : List Service
  customers : List Customer
  orders : List Order
  workers : List Worker
  tracks : List Track
  nextOrderId : Nat
  nextTrackId : Nat
deriving DecidableEq

/-- Equality of handler outcomes is decidable, so witnesses can be checked
by evaluation. -/
instance instDecidableEqExcept {ε α : Type} [DecidableEq ε] [DecidableEq α] :
    DecidableEq (Except ε α)
  | .error a, .error b =>
    if h : a = b then .isTrue (by rw [h])
    else .isFalse (fun hc => by cases hc; exact h rfl)
  | .error _, .ok _ => .isFalse (fun hc => by cases hc)
  | .ok _, .error _ => .isFalse (fun hc => by cases hc)
  | .ok a, .ok b =>
    if h : a = b then .isTrue (by rw [h])
    else .isFalse (fun hc => by cases hc; exact h rfl)

/-- Error taxonomy of the spec (§7), plus `missingFields` for the ad-hoc
400 "Missing fields" responses and `internalError` for an uncaught
exception that surfaces as a 500. -/
inductive ApiError where
  | validationError
  | unauthorized
  | forbidden
  | notFound
  | invalidReference
  | conflict
  | missingFields
  | internalError
deriving DecidableEq

/-- `Worker.query.filter_by(token=token).first()` in `require_worker_token`
and the inline lookup in the FastAPI `scan`. -/
def findWorkerByToken (db : DB) (token : String) : Option Worker :=
  db.workers.find? (fun w => w.token = some token)

/-- `Worker.query.get(worker_id)`. -/
def findWorkerById (db : DB) (wid : Nat) : Option Worker :=
  db.workers.find? (fun w => w.id = wid)

/-- `Order.query.filter_by(order_number=order_number).first()`. -/
def findOrderByNumber (db : DB) (n : String) : Option Order :=
  db.orders.find? (fun o => o.order_number = n)

/-- `Order.query.get(order_id)` / `Order.query.get_or_404(order_id)`. -/
def findOrderById (db : DB) (oid : Nat) : Option Order :=
  db.orders.find? (fun o => o.id = oid)

/-- `Service.query.get(service_id)`. -/
def findServiceById (db : DB) (sid : Nat) : Option Service :=
  db.services.find? (fun s => s.id = sid)

/-- `Customer.query.get(customer_id)`. -/
def findCustomerById (db : DB) (cid : Nat) : Option Customer :=
  db.customers.find? (fun c => c.id = cid)

/-- Write back an updated order row, keyed by its primary key. -/
def replaceOrder (db : DB) (o : Order) : DB :=
  { db with orders := db.orders.map (fun x => if x.id = o.id then o else x) }

/-- Body of `POST /orders` after `OrderCreateSchema.load`:
`service_id` required, `pickup_date` and `instructions` nullable. -/
structure OrderCreateBody where
  service_id : Nat
  pickup_date : Option Nat
  instructions : Option String
deriving DecidableEq

/-- `gen_order_number` is `secrets.token_hex(6)`: the lowercase hex encoding
of six random bytes.  The randomness source is modelled as the byte list
argument; `genOrderNumberOfNat` below fixes it to six bytes drawn from a
48-bit value. -/
def hexDigits : List Char :=
  "0123456789abcdef".toList

def hexDigit (n : Nat) : Char :=
  hexDigits.getD n 'f'

/-- Two lowercase hex digits of one byte, high nibble first, as in
`bytes.hex()`. -/
def byteToHex (b : Nat) : List Char :=
  [hexDigit (b / 16), hexDigit (b % 16)]

/-- Hex encoding of a byte string, as in `bytes.hex()`. -/
def bytesToHex (bs : List Nat) : List Char :=
  (bs.map byteToHex).flatten

/-- `gen_order_number` from `src/src/app/api/orders/routes.py` (the FastAPI
variant is byte-identical): `secrets.token_hex(6)` applied to the given
random bytes. -/
def gen_order_number (randomBytes : List Nat) : String :=
  ⟨bytesToHex randomBytes⟩

/-- Big-endian byte decomposition: `natToBytesBE k n` is the low `k` bytes
of `n`, most significant first. -/
def natToBytesBE : Nat → Nat → List Nat
  | 0, _ => []
  | k + 1, n => natToBytesBE k (n / 256) ++ [n % 256]

/-- The order-number generator seen as a function of the 48-bit random value
that `secrets.token_hex(6)` draws (six uniformly random bytes). -/
def genOrderNumberOfNat (n : Nat) : String :=
  gen_order_number (natToBytesBE 6 n)

/-- Character class of `bytes.hex()` output. -/
def isLowerHexDigit (c : Char) : Bool :=
  c = '0' ∨ c = '1' ∨ c = '2' ∨ c = '3' ∨ c = '4' ∨ c = '5' ∨ c = '6' ∨
  c = '7' ∨ c = '8' ∨ c = '9' ∨ c = 'a' ∨ c = 'b' ∨ c = 'c' ∨ c = 'd' ∨
  c = 'e' ∨ c = 'f'

/-- Value of a lowercase hex digit (left inverse of `hexDigit` below 16). -/
def hexVal (c : Char) : Nat :=
  if c = '0' then 0 else if c = '1' then 1 else if c = '2' then 2
  else if c = '3' then 3 else if c = '4' then 4 else if c = '5' then 5
  else if c = '6' then 6 else if c = '7' then 7 else if c = '8' then 8
  else if c = '9' then 9 else if c = 'a' then 10 else if c = 'b' then 11
  else if c = 'c' then 12 else if c = 'd' then 13 else if c = 'e' then 14
  else 15

/-- Decoder for `bytesToHex`: reads the characters two at a time. -/
def hexPairsToBytes : List Char → List Nat
  | c1 :: c2 :: rest => (16 * hexVal c1 + hexVal c2) :: hexPairsToBytes rest
  | _ => []

/-- Big-endian recomposition, inverse of `natToBytesBE`. -/
def bytesBEToNat (bs : List Nat) : Nat :=
  bs.foldl (fun acc b => acc * 256 + b) 0

/-- The order row built by both `create_order` handlers: state `created`,
`total_cost` snapshotted from the service's current price. -/
def newOrder (db : DB) (customer : Customer) (service : Service)
    (body : OrderCreateBody) (orderNumber : String) (now : Nat) : Order :=
  { id := db.nextOrderId
    order_number := orderNumber
    customer_id := customer.id
    service_id := service.id
    pickup_date := body.pickup_date
    instructions := body.instructions
    total_cost := service.price
    status := "created"
    qr_code_path := none
    created_at := now }

/-- `create_order` from `src/src/app/api/orders/routes.py` lines 18-63.
The JWT identity is the `customer_id` argument; the random order number and
the wall clock are arguments; `qrGen` is `generate_order_qr` applied to
`(order_number, customer email, service name)` from the QR payload, with
`none` standing for a raised exception.  The order row is committed before
the QR call, so a QR failure leaves the row in place and propagates as an
uncaught exception (there is no try/except around `generate_order_qr`). -/
def create_order (db : DB) (customer_id : Nat) (body : OrderCreateBody)
    (orderNumber : String) (qrGen : String → String → String → Option String)
    (now : Nat) : DB × Except ApiError Order :=
  match findCustomerById db customer_id with
  | none => (db, .error .unauthorized)
  | some customer =>
    match findServiceById db body.service_id with
    | none => (db, .error .invalidReference)
    | some service =>
      let order := newOrder db customer service body orderNumber now
      let db1 : DB :=
        { db with orders := db.orders ++ [order], nextOrderId := db.nextOrderId + 1 }
      match qrGen orderNumber customer.email service.name with
      | none => (db1, .error .internalError)
      | some path =>
        let order2 := { order with qr_code_path := some path }
        (replaceOrder db1 order2, .ok order2)

/-- Body of `PUT /orders/<id>` after `OrderUpdateSchema.load(…, partial=True)`.
Each field is `none` when the key is absent from the JSON body, and
`some v` when present with (nullable) value `v` — the handler tests key
presence with `"field" in data`. -/
structure OrderUpdateBody where
  pickup_date : Option (Option Nat)
  instructions : Option (Option String)
  status : Option (Option String)
deriving DecidableEq

/-- The six values of the `order_status` enum column, also the `OneOf`
validator list of `OrderUpdateSchema.status`. -/
def validStatuses : List String :=
  ["created", "picked_up", "processing", "completed", "delivered", "cancelled"]

/-- `OrderUpdateSchema` validation of the `status` field: a present non-null
value must be one of the six statuses; an absent or null value passes
(`allow_none=True`). -/
def statusFieldValid (f : Option (Option String)) : Bool :=
  match f with
  | some (some s) => validStatuses.contains s
  | _ => true

/-- The `if "pickup_date" in data` / `if "instructions" in data` copies of
the Flask `update_order` (the `status` copy is applied separately). -/
def applyOrderUpdate (order : Order) (body : OrderUpdateBody) : Order :=
  let o1 := match body.pickup_date with
    | none => order
    | some v => { order with pickup_date := v }
  match body.instructions with
  | none => o1
  | some v => { o1 with instructions := v }

/-- `update_order` from `src/src/app/api/orders/routes.py` lines 98-122.
The handler copies `pickup_date`, `instructions` and also `status` from the
validated body when the key is present.  A present-but-null `status` would
be assigned to the non-nullable enum column, so the commit fails and the
transaction rolls back: modelled as `internalError` with the store
unchanged. -/
def update_order (db : DB) (customer_id order_id : Nat) (body : OrderUpdateBody) :
    DB × Except ApiError Order :=
  match findOrderById db order_id with
  | none => (db, .error .notFound)
  | some order =>
    if order.customer_id ≠ customer_id then (db, .error .forbidden)
    else if statusFieldValid body.status then
      match body.status with
      | none => (replaceOrder db (applyOrderUpdate order body),
                 .ok (applyOrderUpdate order body))
      | some none => (db, .error .internalError)
      | some (some s) =>
        (replaceOrder db { applyOrderUpdate order body with status := s },
         .ok { applyOrderUpdate order body with status := s })
    else (db, .error .validationError)

/-- `delete_order` from `src/src/app/api/orders/routes.py` lines 124-136.
The handler runs `db.session.delete(order)` only.  The `Track.order`
relationship has no delete cascade and no `passive_deletes`, so on flush
SQLAlchemy nulls out the dependent rows' foreign key; since
`tracks.order_id` is `nullable=False`, that UPDATE violates NOT NULL, the
commit raises IntegrityError and the transaction rolls back — modelled as
`internalError` with the store unchanged.  With no dependent Track rows
the order row alone is removed. -/
def delete_order (db : DB) (customer_id order_id : Nat) :
    DB × Except ApiError Unit :=
  match findOrderById db order_id with
  | none => (db, .error .notFound)
  | some order =>
    if order.customer_id ≠ customer_id then (db, .error .forbidden)
    else if db.tracks.any (fun t => t.order_id = order_id) then
      (db, .error .internalError)
    else ({ db with orders := db.orders.filter (fun o => o.id ≠ order_id) }, .ok ())

/-- Body of `PUT /services/<id>`: raw JSON, each field applied when its key
is present (`duration_minutes` is a nullable column). -/
structure ServiceUpdateBody where
  name : Option String
  price : Option Int
  duration_minutes : Option (Option Nat)
  status : Option String
deriving DecidableEq

/-- `update_service` from `src/src/app/api/services/routes.py` lines 53-70:
field-by-field copy from the request body onto the service row. -/
def update_service (db : DB) (service_id : Nat) (body : ServiceUpdateBody) :
    DB × Except ApiError Service :=
  match findServiceById db service_id with
  | none => (db, .error .notFound)
  | some service =>
    let s1 := match body.name with
      | none => service
      | some v => { service with name := v }
    let s2 := match body.price with
      | none => s1
      | some v => { s1 with price := v }
    let s3 := match body.duration_minutes with
      | none => s2
      | some v => { s2 with duration_minutes := v }
    let s4 := match body.status with
      | none => s3
      | some v => { s3 with status := v }
    ({ db with services := db.services.map (fun s => if s.id = service_id then s4 else s) },
     .ok s4)

/-- `worker_login` from `src/src/app/api/workers/routes.py` lines 34-60.
The body's `password` is read into a local variable but never compared to
anything; `if not worker_id` also rejects a falsy id 0.  On success a fresh
token is generated, stored on the worker row, and returned. -/
def worker_login (db : DB) (worker_id : Option Nat) (password : Option String)
    (freshToken : String) : DB × Except ApiError (String × Worker) :=
  match worker_id with
  | none => (db, .error .missingFields)
  | some wid =>
    if wid = 0 then (db, .error .missingFields)
    else
      match findWorkerById db wid with
      | none => (db, .error .notFound)
      | some w =>
        let w2 := { w with token := some freshToken }
        ({ db with workers := db.workers.map (fun x => if x.id = wid then w2 else x) },
         .ok (freshToken, w2))

/-- Body of `POST /workers/scan`; in the Flask variant absent JSON fields
arrive as `None`, modelled as the empty string for the two required ones
(the handler only tests their truthiness) and as `Option` for the rest. -/
structure ScanRequest where
  order_number : String
  action : String
  location : Option String
  note : Option String
deriving DecidableEq

/-- The `if action == … : order.status = …` chain of the Flask `scan`
(lines 104-112): the four recognized lifecycle actions map to themselves,
anything else leaves the status argument unchanged. -/
def scanStatusUpdate (action status : String) : String :=
  if action = "picked_up" then "picked_up"
  else if action = "processing" then "processing"
  else if action = "completed" then "completed"
  else if action = "delivered" then "delivered"
  else status

/-- In-place status write on the order with the given primary key. -/
def setOrderStatus (orders : List Order) (order_id : Nat) (st : String) :
    List Order :=
  orders.map (fun o => if o.id = order_id then { o with status := st } else o)

/-- `scan` from `src/src/app/api/workers/routes.py` lines 79-124.  The
`worker` argument is `request.worker`, set by `require_worker_token`.  The
Track insert and the status write share one `db.session.commit()`. -/
def scan (db : DB) (worker : Worker) (req : ScanRequest) (now : Nat) :
    DB × Except ApiError Track :=
  if req.order_number = "" ∨ req.action = "" then (db, .error .missingFields)
  else
    match findOrderByNumber db req.order_number with
    | none => (db, .error .notFound)
    | some order =>
      let track : Track := {
        id := db.nextTrackId
        order_id := order.id
        worker_id := some worker.id
        action := req.action
        note := req.note
        location := req.location
        created_at := now }
      ({ db with
          orders := setOrderStatus db.orders order.id
            (scanStatusUpdate req.action order.status)
          tracks := db.tracks ++ [track]
          nextTrackId := db.nextTrackId + 1 },
       .ok track)

/-- The status chain of the FastAPI `scan`
(`src/fabzclean-fastapi/app/api/v1/workers.py` lines 40-43): only
`picked_up` and `delivered` are handled; `processing` and `completed` fall
through like any other action and leave the status unchanged. -/
def fastapiScanStatusUpdate (action status : String) : String :=
  if action = "picked_up" then "picked_up"
  else if action = "delivered" then "delivered"
  else status

/-- `scan` from `src/fabzclean-fastapi/app/api/v1/workers.py` lines 26-47.
Worker authentication is inline (token lookup); `WorkerScanIn` has no
`note` field, so the Track's note is always null. -/
def fastapiScan (db : DB) (token : String) (req : ScanRequest) (now : Nat) :
    DB × Except ApiError Track :=
  match findWorkerByToken db token with
  | none => (db, .error .unauthorized)
  | some worker =>
    match findOrderByNumber db req.order_number with
    | none => (db, .error .notFound)
    | some order =>
      let track : Track := {
        id := db.nextTrackId
        order_id := order.id
        worker_id := some worker.id
        action := req.action
        note := none
        location := req.location
        created_at := now }
      ({ db with
          orders := setOrderStatus db.orders order.id
            (fastapiScanStatusUpdate req.action order.status)
          tracks := db.tracks ++ [track]
          nextTrackId := db.nextTrackId + 1 },
       .ok track)

/-- `create_order` from `src/fabzclean-fastapi/app/api/v1/orders.py` lines
17-33: identical to the Flask handler except that the authenticated
customer object is supplied by the `get_current_customer` dependency. -/
def fastapiCreateOrder (db : DB) (customer : Customer) (body : OrderCreateBody)
    (orderNumber : String) (qrGen : String → String → String → Option String)
    (now : Nat) : DB × Except ApiError Order :=
  match findServiceById db body.service_id with
  | none => (db, .error .invalidReference)
  | some service =>
    let order := newOrder db customer service body orderNumber now
    let db1 : DB :=
      { db with orders := db.orders ++ [order], nextOrderId := db.nextOrderId + 1 }
    match qrGen orderNumber customer.email service.name with
    | none => (db1, .error .internalError)
    | some path =>
      let order2 := { order with qr_code_path := some path }
      (replaceOrder db1 order2, .ok order2)

/-- `update_order` from `src/fabzclean-fastapi/app/api/v1/orders.py` lines
44-54: only `pickup_date` and `instructions` are copied, guarded by Python
truthiness (`if payload.instructions:` skips the empty string); a missing
order and a foreign order both answer 403. -/
def fastapiApplyUpdate (order : Order) (pickup_date : Option Nat)
    (instructions : Option String) : Order :=
  let o1 := match pickup_date with
    | none => order
    | some v => { order with pickup_date := some v }
  match instructions with
  | none => o1
  | some s => if s = "" then o1 else { o1 with instructions := some s }

def fastapiUpdateOrder (db : DB) (customer_id order_id : Nat)
    (pickup_date : Option Nat) (instructions : Option String) :
    DB × Except ApiError Unit :=
  match findOrderById db order_id with
  | none => (db, .error .forbidden)
  | some order =>
    if order.customer_id ≠ customer_id then (db, .error .forbidden)
    else (replaceOrder db (fastapiApplyUpdate order pickup_date instructions), .ok ())

/-- `delete_order` from `src/fabzclean-fastapi/app/api/v1/orders.py` lines
56-63: like the Flask one, `db.delete(order)` with no cascade and no
`passive_deletes` on the `tracks` backref while `tracks.order_id` is
`nullable=False` — deleting an order that has Track rows fails on the FK
null-out (IntegrityError, rollback), deleting one without Track rows
removes the order row only. -/
def fastapiDeleteOrder (db : DB) (customer_id order_id : Nat) :
    DB × Except ApiError Unit :=
  match findOrderById db order_id with
  | none => (db, .error .forbidden)
  | some order =>
    if order.customer_id ≠ customer_id then (db, .error .forbidden)
    else if db.tracks.any (fun t => t.order_id = order_id) then
      (db, .error .internalError)
    else ({ db with orders := db.orders.filter (fun o => o.id ≠ order_id) }, .ok ())

/-!  Concrete fixtures used by witnesses and counterexamples. -/

/-- An active service priced at 5.00. -/
def svc1 : Service :=
  { id := 1, name := "Wash", price := 500, duration_minutes := none, status := "active" }

/-- A registered customer. -/
def cust1 : Customer := { id := 1, email := "a@x.com" }

/-- A worker with device token "tok1". -/
def wrk1 : Worker := { id := 1, name := "W", email := none, token := some "tok1" }

/-- An order of `cust1` for `svc1`, freshly created. -/
def ord1 : Order :=
  { id := 1, order_number := "abc123def456", customer_id := 1, service_id := 1,
    pickup_date := none, instructions := none, total_cost := 500,
    status := "created", qr_code_path := none, created_at := 0 }

/-- A store holding one row of each entity and no tracks. -/
def baseDb : DB :=
  { services := [svc1], customers := [cust1], orders := [ord1],
    workers := [wrk1], tracks := [], nextOrderId := 2, nextTrackId := 1 }

/-- A picked-up Track against `ord1`, recorded by `wrk1`. -/
def trk1 : Track :=
  { id := 1, order_id := 1, worker_id := some 1, action := "picked_up",
    note := none, location := none, created_at := 3 }

/-- `baseDb` after one scan has been recorded. -/
def dbWithTrack : DB := { baseDb with tracks := [trk1], nextTrackId := 2 }

/-- A QR generator that always raises. -/
def qrFail : String → String → String → Option String := fun _ _ _ => none

/-- A QR generator that always succeeds. -/
def qrOk : String → String → String → Option String :=
  fun n _ _ => some ((("/static/qr/").append n).append ".png")

/-!  Helper lemmas about the scan handlers. -/

/-- Outcome analysis of the Flask `scan`: every error leaves the store
untouched; every success appends exactly the returned Track and rewrites
exactly the found order's status. -/
theorem scan_cases (db : DB) (w : Worker) (req : ScanRequest) (now : Nat) :
    (∀ e, (scan db w req now).2 = .error e → (scan db w req now).1 = db) ∧
    (∀ t, (scan db w req now).2 = .ok t →
      (scan db w req now).1.tracks = db.tracks ++ [t] ∧
      ∃ o, findOrderByNumber db req.order_number = some o ∧
        (scan db w req now).1.orders =
          setOrderStatus db.orders o.id (scanStatusUpdate req.action o.status)) := by
  unfold scan
  split
  · exact ⟨fun e _ => rfl, fun t h => nomatch h⟩
  · split
    · exact ⟨fun e _ => rfl, fun t h => nomatch h⟩
    · rename_i o heq
      refine ⟨?_, ?_⟩
      · intro e h
        exact nomatch h
      · intro t h
        cases h
        exact ⟨rfl, o, heq, rfl⟩

/-- Outcome analysis of the FastAPI `scan`, same shape as `scan_cases`. -/
theorem fastapiScan_cases (db : DB) (tok : String) (req : ScanRequest) (now : Nat) :
    (∀ e, (fastapiScan db tok req now).2 = .error e → (fastapiScan db tok req now).1 = db) ∧
    (∀ t, (fastapiScan db tok req now).2 = .ok t →
      (fastapiScan db tok req now).1.tracks = db.tracks ++ [t] ∧
      ∃ o, findOrderByNumber db req.order_number = some o ∧
        (fastapiScan db tok req now).1.orders =
          setOrderStatus db.orders o.id (fastapiScanStatusUpdate req.action o.status)) := by
  unfold fastapiScan
  split
  · exact ⟨fun e _ => rfl, fun t h => nomatch h⟩
  · split
    · exact ⟨fun e _ => rfl, fun t h => nomatch h⟩
    · rename_i o heq
      refine ⟨?_, ?_⟩
      · intro e h
        exact nomatch h
      · intro t h
        cases h
        exact ⟨rfl, o, heq, rfl⟩

/-- C7: a scan whose order number matches no order fails with NotFound and
leaves the store, in particular the tracks table, unchanged — in both
implementations (the FastAPI one reaches the order lookup once the worker
token authenticates). -/
theorem C7_scan_unknown_order (db : DB) (w : Worker) (tok : String)
    (req : ScanRequest) (now : Nat)
    (hnum : req.order_number ≠ "") (hact : req.action ≠ "")
    (hno : findOrderByNumber db req.order_number = none) :
    scan db w req now = (db, .error .notFound) ∧
    (scan db w req now).1.tracks = db.tracks ∧
    (∀ w2, findWorkerByToken db tok = some w2 →
      fastapiScan db tok req now = (db, .error .notFound)) := by
  unfold scan fastapiScan
  rw [if_neg (by simp [hnum, hact]), hno]
  refine ⟨rfl, rfl, fun w2 hw2 => ?_⟩
  rw [hw2]

/-- C7 witness: scanning an unknown order number against the concrete store
fails with NotFound and changes nothing. -/
theorem C7_witness :
    scan baseDb wrk1
      { order_number := "nope", action := "picked_up", location := none, note := none } 4 =
      (baseDb, .error .notFound) :=
  (C7_scan_unknown_order baseDb wrk1 "tok1"
    { order_number := "nope", action := "picked_up", location := none, note := none } 4
    (by decide) (by decide) (by decide)).1

/-- C8: creating an order against a service id that matches no Service fails
with InvalidReference and persists nothing, in both implementations. -/
theorem C8_create_order_invalid_service (db : DB) (cid : Nat)
    (body : OrderCreateBody) (num : String)
    (qrGen : String → String → String → Option String) (now : Nat)
    (c : Customer) (hc : findCustomerById db cid = some c)
    (hs : findServiceById db body.service_id = none) :
    create_order db cid body num qrGen now = (db, .error .invalidReference) ∧
    fastapiCreateOrder db c body num qrGen now = (db, .error .invalidReference) := by
  unfold create_order fastapiCreateOrder
  rw [hc, hs]
  exact ⟨rfl, rfl⟩

/-- C8 witness: a concrete create-order call with service id 99 fails with
InvalidReference and leaves the store unchanged. -/
theorem C8_witness :
    create_order baseDb 1
      { service_id := 99, pickup_date := none, instructions := none }
      "cafe01234567" qrOk 2 = (baseDb, .error .invalidReference) :=
  (C8_create_order_invalid_service baseDb 1
    { service_id := 99, pickup_date := none, instructions := none }
    "cafe01234567" qrOk 2 cust1 (by decide) (by decide)).1

/-- C10: `worker_login` reads the password but never verifies it — the
whole outcome is identical for any two password values — and for an
existing worker (with a DB-generated, hence nonzero, id) it succeeds and
stores a fresh token on the worker row. -/
theorem C10_worker_login_ignores_password (db : DB) (widOpt : Option Nat)
    (p1 p2 : Option String) (tok : String) (wid : Nat) (w : Worker)
    (hw : findWorkerById db wid = some w) (hwid : wid ≠ 0) :
    worker_login db widOpt p1 tok = worker_login db widOpt p2 tok ∧
    (worker_login db (some wid) p1 tok).2 = .ok (tok, { w with token := some tok }) ∧
    (∃ w2 ∈ (worker_login db (some wid) p1 tok).1.workers,
      w2.id = wid ∧ w2.token = some tok) := by
  have hmem : w ∈ db.workers := List.mem_of_find?_eq_some hw
  have hid : w.id = wid := by simpa using List.find?_some hw
  refine ⟨rfl, ?_, ?_⟩
  · simp only [worker_login]
    rw [if_neg hwid, hw]
  · simp only [worker_login]
    rw [if_neg hwid, hw]
    exact ⟨{ w with token := some tok },
      List.mem_map.mpr ⟨w, hmem, by rw [if_pos hid]⟩, hid, rfl⟩

/-- C10 witness: logging in as worker 1 with two different passwords gives
the same outcome, and the stored token is rotated to the fresh one. -/
theorem C10_witness :
    worker_login baseDb (some 1) (some "pw-a") "fresh" =
      worker_login baseDb (some 1) (some "pw-b") "fresh" ∧
    (worker_login baseDb (some 1) (some "pw-a") "fresh").2 =
      .ok ("fresh", { wrk1 with token := some "fresh" }) :=
  ⟨(C10_worker_login_ignores_password baseDb (some 1) (some "pw-a") (some "pw-b")
      "fresh" 1 wrk1 (by decide) (by decide)).1,
   (C10_worker_login_ignores_password baseDb (some 1) (some "pw-a") (some "pw-b")
      "fresh" 1 wrk1 (by decide) (by decide)).2.1⟩

/-- C5: in both implementations the Track append and the Order status write
are applied together or not at all — every error outcome leaves the store
exactly as it was, and every success outcome both appends the Track and
rewrites the scanned order's status in the same step (they share one
commit). -/
theorem C5_scan_atomicity (db : DB) (w : Worker) (tok : String)
    (req : ScanRequest) (now : Nat) :
    ((∀ e, (scan db w req now).2 = .error e → (scan db w req now).1 = db) ∧
     (∀ t, (scan db w req now).2 = .ok t →
       (scan db w req now).1.tracks = db.tracks ++ [t] ∧
       ∃ o, findOrderByNumber db req.order_number = some o ∧
         (scan db w req now).1.orders =
           setOrderStatus db.orders o.id (scanStatusUpdate req.action o.status))) ∧
    ((∀ e, (fastapiScan db tok req now).2 = .error e → (fastapiScan db tok req now).1 = db) ∧
     (∀ t, (fastapiScan db tok req now).2 = .ok t →
       (fastapiScan db tok req now).1.tracks = db.tracks ++ [t] ∧
       ∃ o, findOrderByNumber db req.order_number = some o ∧
         (fastapiScan db tok req now).1.orders =
           setOrderStatus db.orders o.id (fastapiScanStatusUpdate req.action o.status))) :=
  ⟨scan_cases db w req now, fastapiScan_cases db tok req now⟩

/-- C5 witness: a concrete successful scan appends exactly its Track row. -/
theorem C5_witness :
    (scan baseDb wrk1
      { order_number := "abc123def456", action := "picked_up", location := none, note := none }
      9).1.tracks =
      baseDb.tracks ++ [⟨1, 1, some 1, "picked_up", none, none, 9⟩] :=
  (((C5_scan_atomicity baseDb wrk1 "tok1"
      { order_number := "abc123def456", action := "picked_up", location := none, note := none }
      9).1.2) ⟨1, 1, some 1, "picked_up", none, none, 9⟩ (by decide)).1

/-- C6 counterexample: deleting order 1, which has Track `trk1`, does not
succeed at all — the uncascaded FK null-out hits the NOT NULL column, the
transaction rolls back and the store is unchanged, so neither the claimed
success nor the claimed cascade happens. -/
theorem C6_counterexample :
    delete_order dbWithTrack 1 1 = (dbWithTrack, .error .internalError) ∧
    fastapiDeleteOrder dbWithTrack 1 1 = (dbWithTrack, .error .internalError) ∧
    (∃ o ∈ (delete_order dbWithTrack 1 1).1.orders, o.id = 1) ∧
    (delete_order dbWithTrack 1 1).1.tracks = [trk1] ∧
    trk1.order_id = 1 := by decide

/-- C6 amended: owner delete succeeds only when the order has no Track
rows, and then it removes the order row alone (no Track row is ever
deleted); when Track rows reference the order, the delete fails — the
uncascaded relationship nulls the non-nullable `tracks.order_id`, raising
IntegrityError — and the whole store is left unchanged.  Both
implementations behave alike; no cascade is configured in either. -/
theorem C6_delete_order_no_cascade (db : DB) (cid oid : Nat) (o : Order)
    (ho : findOrderById db oid = some o) (hown : o.customer_id = cid) :
    ((∀ t ∈ db.tracks, t.order_id ≠ oid) →
      (delete_order db cid oid).2 = .ok () ∧
      (delete_order db cid oid).1.orders = db.orders.filter (fun x => x.id ≠ oid) ∧
      (delete_order db cid oid).1.tracks = db.tracks ∧
      (fastapiDeleteOrder db cid oid).2 = .ok () ∧
      (fastapiDeleteOrder db cid oid).1.orders = db.orders.filter (fun x => x.id ≠ oid) ∧
      (fastapiDeleteOrder db cid oid).1.tracks = db.tracks) ∧
    ((∃ t ∈ db.tracks, t.order_id = oid) →
      delete_order db cid oid = (db, .error .internalError) ∧
      fastapiDeleteOrder db cid oid = (db, .error .internalError)) := by
  unfold delete_order fastapiDeleteOrder
  rw [ho]
  constructor
  · intro hnone
    have hany : db.tracks.any (fun t => t.order_id = oid) = false := by
      simp only [List.any_eq_false, decide_eq_true_eq]
      exact hnone
    simp [hown, hany]
  · rintro ⟨t, ht, htid⟩
    have hany : db.tracks.any (fun t => t.order_id = oid) = true := by
      simp only [List.any_eq_true, decide_eq_true_eq]
      exact ⟨t, ht, htid⟩
    simp [hown, hany]

/-- C6 witness: the amended statement evaluated concretely — deleting the
track-free order removes just the order row, deleting the same order once
it has a Track fails and leaves the store unchanged. -/
theorem C6_witness :
    ((delete_order baseDb 1 1).2 = .ok () ∧
     (delete_order baseDb 1 1).1.tracks = baseDb.tracks) ∧
    delete_order dbWithTrack 1 1 = (dbWithTrack, .error .internalError) :=
  ⟨⟨((C6_delete_order_no_cascade baseDb 1 1 ord1 (by decide) (by decide)).1
      (by decide)).1,
    ((C6_delete_order_no_cascade baseDb 1 1 ord1 (by decide) (by decide)).1
      (by decide)).2.2.1⟩,
   ((C6_delete_order_no_cascade dbWithTrack 1 1 ord1 (by decide) (by decide)).2
      (by decide)).1⟩

/-- Agreement on every Order field except the two the update operation is
specified to change (`pickup_date` and `instructions`). -/
def sameExceptUpdatable (x y : Order) : Prop :=
  x.id = y.id ∧ x.order_number = y.order_number ∧ x.customer_id = y.customer_id ∧
  x.service_id = y.service_id ∧ x.total_cost = y.total_cost ∧
  x.status = y.status ∧ x.qr_code_path = y.qr_code_path ∧ x.created_at = y.created_at

theorem sameExceptUpdatable_refl (x : Order) : sameExceptUpdatable x x :=
  ⟨rfl, rfl, rfl, rfl, rfl, rfl, rfl, rfl⟩

theorem applyOrderUpdate_same (o : Order) (body : OrderUpdateBody) :
    sameExceptUpdatable (applyOrderUpdate o body) o := by
  obtain ⟨pd, ins, st⟩ := body
  cases pd <;> cases ins <;>
    exact ⟨rfl, rfl, rfl, rfl, rfl, rfl, rfl, rfl⟩

theorem fastapiApplyUpdate_same (o : Order) (pd : Option Nat) (ins : Option String) :
    sameExceptUpdatable (fastapiApplyUpdate o pd ins) o := by
  cases pd <;> cases ins <;>
    first
      | exact ⟨rfl, rfl, rfl, rfl, rfl, rfl, rfl, rfl⟩
      | · rename_i s
          by_cases hs : s = "" <;>
            simp [fastapiApplyUpdate, hs, sameExceptUpdatable]

/-- Membership in the order table after a single-row write-back: each row is
either the written row or an untouched one. -/
theorem replaceOrder_mem (db : DB) (o2 x : Order)
    (hx : x ∈ (replaceOrder db o2).orders) : x = o2 ∨ x ∈ db.orders := by
  unfold replaceOrder at hx
  simp only [List.mem_map] at hx
  obtain ⟨y, hy, hxy⟩ := hx
  by_cases h : y.id = o2.id
  · left
    rw [← hxy]
    simp [h]
  · right
    rw [← hxy]
    simpa [h] using hy

/-- C2 counterexample: a PUT body carrying only `{status: "delivered"}` on a
freshly created order succeeds and moves the order's status from `created`
to `delivered` — the Flask update operation does set status. -/
theorem C2_counterexample :
    (update_order baseDb 1 1
      { pickup_date := none, instructions := none, status := some (some "delivered") }).2 =
      .ok { ord1 with status := "delivered" } ∧
    (∀ o ∈ (update_order baseDb 1 1
      { pickup_date := none, instructions := none, status := some (some "delivered") }).1.orders,
      o.status = "delivered" ∧ o.status ≠ "created") ∧
    ord1.status = "created" := by decide

/-- C2 amended: the FastAPI update operation changes only `pickup_date` and
`instructions` (status is preserved for every request body); the Flask one
additionally applies a `status` field from the body, so there status is
preserved only when the body omits that key. -/
theorem C2_update_order_frame (db : DB) (cid oid : Nat) (body : OrderUpdateBody)
    (pd : Option Nat) (ins : Option String) :
    (∀ x ∈ (fastapiUpdateOrder db cid oid pd ins).1.orders,
      ∃ y ∈ db.orders, sameExceptUpdatable x y) ∧
    (body.status = none →
      ∀ x ∈ (update_order db cid oid body).1.orders,
        ∃ y ∈ db.orders, sameExceptUpdatable x y) := by
  constructor
  · intro x hx
    unfold fastapiUpdateOrder at hx
    split at hx
    · exact ⟨x, hx, sameExceptUpdatable_refl x⟩
    · rename_i order heq
      split at hx
      · exact ⟨x, hx, sameExceptUpdatable_refl x⟩
      · rcases replaceOrder_mem db _ x hx with h1 | h1
        · exact ⟨order, List.mem_of_find?_eq_some heq,
            h1 ▸ fastapiApplyUpdate_same order pd ins⟩
        · exact ⟨x, h1, sameExceptUpdatable_refl x⟩
  · intro hst x hx
    unfold update_order at hx
    split at hx
    · exact ⟨x, hx, sameExceptUpdatable_refl x⟩
    · rename_i order heq
      split at hx
      · exact ⟨x, hx, sameExceptUpdatable_refl x⟩
      · split at hx
        · rw [hst] at hx
          rcases replaceOrder_mem db _ x hx with h1 | h1
          · exact ⟨order, List.mem_of_find?_eq_some heq,
              h1 ▸ applyOrderUpdate_same order body⟩
          · exact ⟨x, h1, sameExceptUpdatable_refl x⟩
        · exact ⟨x, hx, sameExceptUpdatable_refl x⟩

/-- C2 witness: updating only the instructions of the concrete order keeps
its status (and every other non-updatable field). -/
theorem C2_witness :
    ∀ x ∈ (update_order baseDb 1 1
      { pickup_date := none, instructions := some (some "rush"), status := none }).1.orders,
      ∃ y ∈ baseDb.orders, sameExceptUpdatable x y :=
  (C2_update_order_frame baseDb 1 1
    { pickup_date := none, instructions := some (some "rush"), status := none }
    none none).2 rfl

/-- C3: the created order's `total_cost` is the referenced service's price
at creation time (both implementations), and `update_service` — the only
way a service price changes — rewrites the services table only, leaving
every existing order row, hence its `total_cost`, untouched. -/
theorem C3_total_cost_snapshot (db : DB) (cid : Nat) (body : OrderCreateBody)
    (num : String) (qrGen : String → String → String → Option String)
    (now : Nat) (s : Service)
    (hs : findServiceById db body.service_id = some s)
    (db2 : DB) (sid2 : Nat) (body2 : ServiceUpdateBody) :
    (∀ o2, (create_order db cid body num qrGen now).2 = .ok o2 →
      o2.total_cost = s.price) ∧
    (∀ c o2, (fastapiCreateOrder db c body num qrGen now).2 = .ok o2 →
      o2.total_cost = s.price) ∧
    (update_service db2 sid2 body2).1.orders = db2.orders := by
  refine ⟨?_, ?_, ?_⟩
  · intro o2 h
    unfold create_order at h
    split at h
    · exact nomatch h
    · rw [hs] at h
      dsimp only at h
      split at h
      · exact nomatch h
      · cases h
        rfl
  · intro c o2 h
    unfold fastapiCreateOrder at h
    rw [hs] at h
    dsimp only at h
    split at h
    · exact nomatch h
    · cases h
      rfl
  · unfold update_service
    split <;> rfl

/-- C3 witness: a concrete successful creation snapshots price 500, and a
later price edit to 999 leaves the orders table unchanged. -/
theorem C3_witness :
    (∀ o2, (create_order baseDb 1
        { service_id := 1, pickup_date := none, instructions := none }
        "0123456789ab" qrOk 3).2 = .ok o2 → o2.total_cost = svc1.price) ∧
    (update_service baseDb 1
      { name := none, price := some 999, duration_minutes := none, status := none }).1.orders =
      baseDb.orders :=
  ⟨(C3_total_cost_snapshot baseDb 1
      { service_id := 1, pickup_date := none, instructions := none }
      "0123456789ab" qrOk 3 svc1 (by decide) baseDb 1
      { name := none, price := some 999, duration_minutes := none, status := none }).1,
   (C3_total_cost_snapshot baseDb 1
      { service_id := 1, pickup_date := none, instructions := none }
      "0123456789ab" qrOk 3 svc1 (by decide) baseDb 1
      { name := none, price := some 999, duration_minutes := none, status := none }).2.2⟩

/-- C4 counterexample: with a QR generator that raises, order creation on
the concrete store answers an error (`internalError`, i.e. an uncaught
exception surfacing as a 500) rather than a success with a warning — yet
the order row is already persisted. -/
theorem C4_counterexample :
    (create_order baseDb 1
      { service_id := 1, pickup_date := none, instructions := none }
      "feedbeef0123" qrFail 7).2 = .error .internalError ∧
    (∃ o ∈ (create_order baseDb 1
      { service_id := 1, pickup_date := none, instructions := none }
      "feedbeef0123" qrFail 7).1.orders,
      o.order_number = "feedbeef0123" ∧ o.status = "created") := by decide

/-- C4 amended: if label generation fails during order creation, the order
row still exists (it was committed before the QR call), but the failure is
not caught: the whole operation answers an error and no warning is attached
to any success response — in both implementations. -/
theorem C4_qr_failure_order_persists (db : DB) (cid : Nat)
    (body : OrderCreateBody) (num : String)
    (qrGen : String → String → String → Option String) (now : Nat)
    (c : Customer) (s : Service)
    (hc : findCustomerById db cid = some c)
    (hs : findServiceById db body.service_id = some s)
    (hq : qrGen num c.email s.name = none) :
    (create_order db cid body num qrGen now).2 = .error .internalError ∧
    newOrder db c s body num now ∈ (create_order db cid body num qrGen now).1.orders ∧
    (fastapiCreateOrder db c body num qrGen now).2 = .error .internalError ∧
    newOrder db c s body num now ∈ (fastapiCreateOrder db c body num qrGen now).1.orders := by
  unfold create_order fastapiCreateOrder
  rw [hc, hs]
  dsimp only
  rw [hq]
  refine ⟨rfl, ?_, rfl, ?_⟩ <;> simp

/-- C4 witness: the amended statement evaluated on the concrete store. -/
theorem C4_witness :
    newOrder baseDb cust1 svc1
      { service_id := 1, pickup_date := none, instructions := none }
      "feedbeef4567" 7 ∈
    (create_order baseDb 1
      { service_id := 1, pickup_date := none, instructions := none }
      "feedbeef4567" qrFail 7).1.orders :=
  (C4_qr_failure_order_persists baseDb 1
    { service_id := 1, pickup_date := none, instructions := none }
    "feedbeef4567" qrFail 7 cust1 svc1 (by decide) (by decide) rfl).2.1

/-- The four lifecycle actions the spec calls recognized. -/
def recognizedActions : List String :=
  ["picked_up", "processing", "completed", "delivered"]

theorem scanStatusUpdate_of_mem (a st : String) (h : a ∈ recognizedActions) :
    scanStatusUpdate a st = a := by
  simp only [recognizedActions, List.mem_cons, List.not_mem_nil, or_false] at h
  rcases h with h | h | h | h <;> subst h <;> rfl

theorem scanStatusUpdate_of_not_mem (a st : String) (h : a ∉ recognizedActions) :
    scanStatusUpdate a st = st := by
  simp only [recognizedActions, List.mem_cons, List.not_mem_nil, or_false, not_or] at h
  obtain ⟨h1, h2, h3, h4⟩ := h
  simp [scanStatusUpdate, h1, h2, h3, h4]

theorem fastapiScanStatusUpdate_of_mapped (a st : String)
    (h : a = "picked_up" ∨ a = "delivered") : fastapiScanStatusUpdate a st = a := by
  rcases h with h | h <;> subst h <;> rfl

theorem fastapiScanStatusUpdate_of_unmapped (a st : String)
    (h1 : a ≠ "picked_up") (h2 : a ≠ "delivered") :
    fastapiScanStatusUpdate a st = st := by
  simp [fastapiScanStatusUpdate, h1, h2]

theorem setOrderStatus_mem (l : List Order) (i : Nat) (st : String) (x : Order)
    (hx : x ∈ setOrderStatus l i st) (hxi : x.id = i) : x.status = st := by
  unfold setOrderStatus at hx
  obtain ⟨y, hy, hxy⟩ := List.mem_map.mp hx
  by_cases h : y.id = i
  · subst hxy
    simp [h]
  · subst hxy
    rw [if_neg h] at hxi
    exact absurd hxi h

/-- Writing an order's own current status back is a no-op when primary keys
are unique. -/
theorem setOrderStatus_self (l : List Order) (o : Order) (ho : o ∈ l)
    (hids : (l.map Order.id).Nodup) : setOrderStatus l o.id o.status = l := by
  unfold setOrderStatus
  conv_rhs => rw [← List.map_id l]
  apply List.map_congr_left
  intro x hx
  by_cases hxi : x.id = o.id
  · have hxo : x = o := List.inj_on_of_nodup_map hids hx ho hxi
    subst hxo
    simp
  · simp [hxi]

/-- Evaluation of the Flask `scan` when the order is found and the two
required fields are present. -/
theorem scan_eq_of_found (db : DB) (w : Worker) (req : ScanRequest) (now : Nat)
    (o : Order) (hnum : req.order_number ≠ "") (hact : req.action ≠ "")
    (ho : findOrderByNumber db req.order_number = some o) :
    scan db w req now =
      ({ db with
          orders := setOrderStatus db.orders o.id (scanStatusUpdate req.action o.status)
          tracks := db.tracks ++
            [⟨db.nextTrackId, o.id, some w.id, req.action, req.note, req.location, now⟩]
          nextTrackId := db.nextTrackId + 1 },
       .ok ⟨db.nextTrackId, o.id, some w.id, req.action, req.note, req.location, now⟩) := by
  unfold scan
  rw [if_neg (by simp [hnum, hact]), ho]

/-- Evaluation of the FastAPI `scan` when the worker token and the order
number both resolve. -/
theorem fastapiScan_eq_of_found (db : DB) (tok : String) (req : ScanRequest)
    (now : Nat) (w : Worker) (o : Order)
    (hw : findWorkerByToken db tok = some w)
    (ho : findOrderByNumber db req.order_number = some o) :
    fastapiScan db tok req now =
      ({ db with
          orders := setOrderStatus db.orders o.id
            (fastapiScanStatusUpdate req.action o.status)
          tracks := db.tracks ++
            [⟨db.nextTrackId, o.id, some w.id, req.action, none, req.location, now⟩]
          nextTrackId := db.nextTrackId + 1 },
       .ok ⟨db.nextTrackId, o.id, some w.id, req.action, none, req.location, now⟩) := by
  unfold fastapiScan
  rw [hw, ho]

/-- C1 counterexample: a FastAPI scan with action `processing` (a recognized
lifecycle action per the claim) succeeds and appends its Track, but the
order's status stays `created` instead of becoming `processing`. -/
theorem C1_counterexample :
    (fastapiScan baseDb "tok1"
      { order_number := "abc123def456", action := "processing", location := none, note := none }
      5).2 = .ok ⟨1, 1, some 1, "processing", none, none, 5⟩ ∧
    (∀ x ∈ (fastapiScan baseDb "tok1"
      { order_number := "abc123def456", action := "processing", location := none, note := none }
      5).1.orders, x.status = "created" ∧ x.status ≠ "processing") := by decide

/-- C1 amended: in the Flask implementation every authenticated scan against
an existing order appends a Track carrying the action, the order id and the
worker id, the four recognized actions set the matching status, and any
other (non-empty) action leaves the status unchanged.  In the FastAPI
implementation the Track is appended likewise, but only `picked_up` and
`delivered` drive a status change; `processing` and `completed` are
recorded without changing the status. -/
theorem C1_scan_action_mapping (db : DB) (w : Worker) (tok : String)
    (req : ScanRequest) (now : Nat) (o : Order)
    (hids : (db.orders.map Order.id).Nodup)
    (hw : findWorkerByToken db tok = some w)
    (ho : findOrderByNumber db req.order_number = some o)
    (hnum : req.order_number ≠ "") (hact : req.action ≠ "") :
    (∃ t, (scan db w req now).2 = .ok t ∧
      (scan db w req now).1.tracks = db.tracks ++ [t] ∧
      t.action = req.action ∧ t.order_id = o.id ∧ t.worker_id = some w.id) ∧
    (req.action ∈ recognizedActions →
      ∀ x ∈ (scan db w req now).1.orders, x.id = o.id → x.status = req.action) ∧
    (req.action ∉ recognizedActions → (scan db w req now).1.orders = db.orders) ∧
    (∃ t, (fastapiScan db tok req now).2 = .ok t ∧
      (fastapiScan db tok req now).1.tracks = db.tracks ++ [t] ∧
      t.action = req.action ∧ t.order_id = o.id ∧ t.worker_id = some w.id) ∧
    ((req.action = "picked_up" ∨ req.action = "delivered") →
      ∀ x ∈ (fastapiScan db tok req now).1.orders, x.id = o.id → x.status = req.action) ∧
    ((req.action = "processing" ∨ req.action = "completed") →
      (fastapiScan db tok req now).1.orders = db.orders) := by
  have hoMem : o ∈ db.orders := List.mem_of_find?_eq_some ho
  rw [scan_eq_of_found db w req now o hnum hact ho,
    fastapiScan_eq_of_found db tok req now w o hw ho]
  refine ⟨⟨_, rfl, rfl, rfl, rfl, rfl⟩, ?_, ?_, ⟨_, rfl, rfl, rfl, rfl, rfl⟩, ?_, ?_⟩
  · intro hmem x hx hxid
    rw [scanStatusUpdate_of_mem req.action o.status hmem] at hx
    exact setOrderStatus_mem db.orders o.id req.action x hx hxid
  · intro hnmem
    rw [scanStatusUpdate_of_not_mem req.action o.status hnmem]
    exact setOrderStatus_self db.orders o hoMem hids
  · intro hmap x hx hxid
    rw [fastapiScanStatusUpdate_of_mapped req.action o.status hmap] at hx
    exact setOrderStatus_mem db.orders o.id req.action x hx hxid
  · intro hpc
    have h1 : req.action ≠ "picked_up" := by
      rcases hpc with h | h <;> rw [h] <;> decide
    have h2 : req.action ≠ "delivered" := by
      rcases hpc with h | h <;> rw [h] <;> decide
    rw [fastapiScanStatusUpdate_of_unmapped req.action o.status h1 h2]
    exact setOrderStatus_self db.orders o hoMem hids

/-- C1 witness: a concrete Flask scan with action `picked_up` on the
concrete store yields exactly the order with status `picked_up`. -/
theorem C1_witness :
    (scan baseDb wrk1
      { order_number := "abc123def456", action := "picked_up", location := none, note := none }
      11).1.orders = [{ ord1 with status := "picked_up" }] ∧
    ({ ord1 with status := "picked_up" } : Order).status = "picked_up" :=
  ⟨by decide,
   (C1_scan_action_mapping baseDb wrk1 "tok1"
     { order_number := "abc123def456", action := "picked_up", location := none, note := none }
     11 ord1 (by decide) (by decide) (by decide) (by decide) (by decide)).2.1
     (by decide) { ord1 with status := "picked_up" } (by decide) (by decide)⟩

/-!  Facts about the order-number generator (`secrets.token_hex(6)`). -/

theorem bytesToHex_cons (b : Nat) (bs : List Nat) :
    bytesToHex (b :: bs) = byteToHex b ++ bytesToHex bs := rfl

theorem bytesToHex_length (bs : List Nat) :
    (bytesToHex bs).length = 2 * bs.length := by
  induction bs with
  | nil => rfl
  | cons b bs ih =>
    rw [bytesToHex_cons, List.length_append, ih, List.length_cons]
    have hb : (byteToHex b).length = 2 := rfl
    omega

theorem hexDigit_isHex (n : Nat) : isLowerHexDigit (hexDigit n) = true := by
  rcases Nat.lt_or_ge n 16 with h | h
  · interval_cases n <;> decide
  · unfold hexDigit
    rw [List.getD_eq_default]
    · decide
    · show hexDigits.length ≤ n
      have h16 : hexDigits.length = 16 := rfl
      omega

theorem bytesToHex_all_hex (bs : List Nat) :
    ∀ c ∈ bytesToHex bs, isLowerHexDigit c = true := by
  induction bs with
  | nil => intro c hc; cases hc
  | cons b bs ih =>
    intro c hc
    rw [bytesToHex_cons] at hc
    rcases List.mem_append.mp hc with h | h
    · simp only [byteToHex, List.mem_cons, List.not_mem_nil, or_false] at h
      rcases h with h | h <;> subst h <;> exact hexDigit_isHex _
    · exact ih c h

theorem hexVal_hexDigit : ∀ n < 16, hexVal (hexDigit n) = n := by decide

theorem hexPairsToBytes_bytesToHex (bs : List Nat) (h : ∀ b ∈ bs, b < 256) :
    hexPairsToBytes (bytesToHex bs) = bs := by
  induction bs with
  | nil => rfl
  | cons b bs ih =>
    have hb : b < 256 := h b (List.mem_cons_self b bs)
    rw [bytesToHex_cons]
    show (16 * hexVal (hexDigit (b / 16)) + hexVal (hexDigit (b % 16))) ::
      hexPairsToBytes (bytesToHex bs) = b :: bs
    rw [hexVal_hexDigit _ (by omega), hexVal_hexDigit _ (by omega),
      ih (fun x hx => h x (List.mem_cons_of_mem b hx))]
    congr 1
    omega

theorem natToBytesBE_length (k n : Nat) : (natToBytesBE k n).length = k := by
  induction k generalizing n with
  | zero => rfl
  | succ k ih => simp [natToBytesBE, ih]

theorem natToBytesBE_lt (k n : Nat) : ∀ b ∈ natToBytesBE k n, b < 256 := by
  induction k generalizing n with
  | zero => intro b hb; cases hb
  | succ k ih =>
    intro b hb
    simp only [natToBytesBE] at hb
    rcases List.mem_append.mp hb with h | h
    · exact ih (n / 256) b h
    · have hb2 : b = n % 256 := by simpa using h
      omega

theorem natToBytesBE_inj (k m n : Nat) (hm : m < 256 ^ k) (hn : n < 256 ^ k)
    (h : natToBytesBE k m = natToBytesBE k n) : m = n := by
  induction k generalizing m n with
  | zero =>
    simp only [pow_zero, Nat.lt_one_iff] at hm hn
    omega
  | succ k ih =>
    simp only [natToBytesBE] at h
    obtain ⟨h2, h3⟩ := List.append_inj h
      (by rw [natToBytesBE_length, natToBytesBE_length])
    have hmod : m % 256 = n % 256 := by simpa using h3
    have hdiv : m / 256 = n / 256 := by
      apply ih
      · rw [Nat.div_lt_iff_lt_mul (by norm_num : (0 : Nat) < 256)]
        calc m < 256 ^ (k + 1) := hm
          _ = 256 ^ k * 256 := pow_succ 256 k
      · rw [Nat.div_lt_iff_lt_mul (by norm_num : (0 : Nat) < 256)]
        calc n < 256 ^ (k + 1) := hn
          _ = 256 ^ k * 256 := pow_succ 256 k
      · exact h2
    omega

theorem genOrderNumber_length (n : Nat) : (genOrderNumberOfNat n).length = 12 := by
  show (bytesToHex (natToBytesBE 6 n)).length = 12
  rw [bytesToHex_length, natToBytesBE_length]

/-- C9: the order-number generator always emits a 12-character lowercase
hexadecimal string (well under the 64-character column limit and never
empty), and the encoding of the 48-bit random value is injective — the
numbers are drawn from a space of exactly 2^48 values. -/
theorem C9_order_number_format (m n : Nat) (hm : m < 2 ^ 48) (hn : n < 2 ^ 48) :
    (genOrderNumberOfNat m).length = 12 ∧
    (∀ c ∈ (genOrderNumberOfNat m).data, isLowerHexDigit c = true) ∧
    genOrderNumberOfNat m ≠ "" ∧
    (genOrderNumberOfNat m).length ≤ 64 ∧
    (genOrderNumberOfNat m = genOrderNumberOfNat n → m = n) := by
  have hlen := genOrderNumber_length m
  have hpow : (256 : Nat) ^ 6 = 2 ^ 48 := by norm_num
  refine ⟨hlen, ?_, ?_, ?_, ?_⟩
  · intro c hc
    exact bytesToHex_all_hex (natToBytesBE 6 m) c hc
  · intro hempty
    rw [hempty] at hlen
    exact absurd hlen (by decide)
  · rw [hlen]
    omega
  · intro heq
    have hdata : bytesToHex (natToBytesBE 6 m) = bytesToHex (natToBytesBE 6 n) :=
      congrArg String.data heq
    have hbytes : natToBytesBE 6 m = natToBytesBE 6 n := by
      have h1 := hexPairsToBytes_bytesToHex (natToBytesBE 6 m) (natToBytesBE_lt 6 m)
      have h2 := hexPairsToBytes_bytesToHex (natToBytesBE 6 n) (natToBytesBE_lt 6 n)
      rw [← h1, ← h2, hdata]
    exact natToBytesBE_inj 6 m n (by rw [hpow]; exact hm) (by rw [hpow]; exact hn) hbytes

/-- C9 witness: the format facts and injectivity evaluated at the concrete
random values 0 and 1. -/
theorem C9_witness :
    (genOrderNumberOfNat 0).length = 12 ∧
    (genOrderNumberOfNat 0 = genOrderNumberOfNat 1 → (0 : Nat) = 1) :=
  ⟨(C9_order_number_format 0 1 (by decide) (by decide)).1,
   (C9_order_number_format 0 1 (by decide) (by decide)).2.2.2.2⟩

end FabZClean
